import Mathlib

/-!
# Verification of the raug-server command protocol and dispatch layer

Shallow embedding of `src/graph.rs`, `src/server.rs` and `src/main.rs`:
the OSC wire model, the `GraphOp` command model, the `Server` session
state, and the UDP transport loop.  Rust machine integers are modelled
as `Nat`/`Int` with the `as` casts made explicit; Rust panics
(`unreachable!`, `.unwrap()`, `todo!`, out-of-bounds indexing) are
modelled as an explicit `panic` error constructor, kept distinct from
recoverable `Err` returns, because the two have different observable
behaviour (a panic crashes the process, an `Err` is a value).
-/

namespace RaugServer

/-- Rust `f32` values, modelled by their bit patterns.  The repository
performs no floating-point arithmetic on them: constants are carried
through `OscType::Float` unchanged, so a bit-pattern carrier is exact
for everything proved here (IEEE equality quirks such as `NaN ≠ NaN`
are abstracted away by this choice). -/
abbrev F32 := Nat

/-- The `as i32` cast from an unsigned Rust integer (`usize`/`u32`):
two's-complement truncation to 32 bits. -/
def i32OfNat (n : Nat) : Int :=
  let m : Nat := n % 2 ^ 32
  if m < 2 ^ 31 then (m : Int) else (m : Int) - 2 ^ 32

/-- The `as usize` cast from `i32` on a 64-bit target: sign-extension,
reinterpreted as unsigned. -/
def usizeOfI32 (i : Int) : Nat :=
  (i % 2 ^ 64).toNat

/-- The `as u32` cast from `i32`: two's-complement reinterpretation. -/
def u32OfI32 (i : Int) : Nat :=
  (i % 2 ^ 32).toNat

/-- The OSC argument types the codec of the spec admits (`rosc::OscType`
restricted to the four argument types this protocol uses: 32-bit int,
32-bit float, bool, string).  The `int` payload is the mathematical
value of the wire `i32`. -/
inductive OscType where
  | int (i : Int)
  | float (bits : F32)
  | bool (b : Bool)
  | string (s : String)
  deriving DecidableEq

/-- `rosc::OscType::int`: `Some` exactly on the `Int` variant. -/
def OscType.int? : OscType → Option Int
  | .int i => some i
  | _ => none

/-- `rosc::OscType::float`. -/
def OscType.float? : OscType → Option F32
  | .float c => some c
  | _ => none

/-- `rosc::OscType::bool`. -/
def OscType.bool? : OscType → Option Bool
  | .bool b => some b
  | _ => none

/-- `rosc::OscType::string`. -/
def OscType.string? : OscType → Option String
  | .string s => some s
  | _ => none

/-- `rosc::OscMessage`: an address plus ordered typed arguments. -/
structure OscMessage where
  addr : String
  args : List OscType
  deriving DecidableEq

/-- `rosc::OscPacket`: a single message or an ordered bundle of nested
packets (timestamps are unused by this protocol and omitted). -/
inductive OscPacket where
  | message (msg : OscMessage)
  | bundle (content : List OscPacket)

/-- `NameOrIndex` from `graph.rs`: a port reference, either symbolic or
numeric.  The `index` payload is a `u32` value (always `< 2^32` when
produced by the code's casts). -/
inductive NameOrIndex where
  | name (s : String)
  | index (i : Nat)
  deriving DecidableEq

/-- `NameOrIndex::try_from(OscType)` from `graph.rs`: string → `Name`,
int → `Index` (via `as u32`), anything else → `InvalidNameOrIndexError`
(modelled as `none`). -/
def NameOrIndex.tryFrom : OscType → Option NameOrIndex
  | .string s => some (.name s)
  | .int i => some (.index (u32OfI32 i))
  | _ => none

/-- `impl Into<OscType> for NameOrIndex` from `graph.rs`. -/
def NameOrIndex.toOscType : NameOrIndex → OscType
  | .name n => .string n
  | .index i => .int (i32OfNat i)

/-- `GraphOp` from `graph.rs`.  `NodeIndex` and `usize` fields are
modelled as `Nat`. -/
inductive GraphOp where
  | play
  | stop
  | addConstantF32 (c : F32)
  | addConstantBool (b : Bool)
  | addConstantString (s : String)
  | addToMix (mixerChannel : Nat) (source : Nat) (sourceOutput : NameOrIndex)
  | addProcessor (n : String)
  | connect (source : Nat) (sourceOutput : NameOrIndex)
      (target : Nat) (targetInput : NameOrIndex)
  | replaceNode (replaced : Nat) (replacement : Nat)
  deriving DecidableEq

/-- Errors of `GraphOp::try_from_osc` / `GraphOpResponse::try_from_osc`.
`unknownOp` models the recoverable `InvalidGraphOpError` /
`InvalidGraphOpResponseError` (an `anyhow::Error` return);
`invalidNameOrIndex` models the recoverable `InvalidNameOrIndexError`
propagated with `?`; `panic` models a reached `unreachable!()` or
`Option::unwrap` on `None` — a crash, not an error value. -/
inductive ParseErr where
  | unknownOp (addr : String)
  | invalidNameOrIndex
  | panic
  deriving DecidableEq

/-- The `OscPacket::Message` arm of `GraphOp::try_from_osc`
(`graph.rs` lines 229–297), translated match-arm by match-arm.  The
source first matches the address, then destructures the argument slice
with `let [..] = .. else unreachable!()` (wrong arity → panic) and
converts each argument with `.int()/.float()/.bool()/.string()` followed
by `.unwrap()` (wrong type → panic), except for the two `/connect` port
arguments which go through the fallible `NameOrIndex::try_from` with
`?`. -/
def GraphOp.tryFromMsg (msg : OscMessage) : Except ParseErr (List GraphOp) :=
  match msg.addr with
  | "/play" => .ok [.play]
  | "/stop" => .ok [.stop]
  | "/add_to_mix" =>
    match msg.args with
    | [channel, index, output] =>
      match channel.int? with
      | none => .error .panic
      | some c =>
        match index.int? with
        | none => .error .panic
        | some i =>
          match output.int? with
          | none => .error .panic
          | some o =>
            .ok [.addToMix (usizeOfI32 c) (usizeOfI32 i) (.index (u32OfI32 o))]
    | _ => .error .panic
  | "/add_constant_f32" =>
    match msg.args with
    | [c] =>
      match c.float? with
      | none => .error .panic
      | some c => .ok [.addConstantF32 c]
    | _ => .error .panic
  | "/add_constant_bool" =>
    match msg.args with
    | [c] =>
      match c.bool? with
      | none => .error .panic
      | some c => .ok [.addConstantBool c]
    | _ => .error .panic
  | "/add_constant_string" =>
    match msg.args with
    | [c] =>
      match c.string? with
      | none => .error .panic
      | some c => .ok [.addConstantString c]
    | _ => .error .panic
  | "/add_processor" =>
    match msg.args with
    | [n] =>
      match n.string? with
      | none => .error .panic
      | some n => .ok [.addProcessor n]
    | _ => .error .panic
  | "/connect" =>
    match msg.args with
    | [source, sourceOutput, target, targetInput] =>
      match source.int? with
      | none => .error .panic
      | some s =>
        match NameOrIndex.tryFrom sourceOutput with
        | none => .error .invalidNameOrIndex
        | some so =>
          match target.int? with
          | none => .error .panic
          | some t =>
            match NameOrIndex.tryFrom targetInput with
            | none => .error .invalidNameOrIndex
            | some ti =>
              .ok [.connect (usizeOfI32 s) so (usizeOfI32 t) ti]
    | _ => .error .panic
  | "/replace_node" =>
    match msg.args with
    | [replaced, replacement] =>
      match replaced.int? with
      | none => .error .panic
      | some r =>
        match replacement.int? with
        | none => .error .panic
        | some p => .ok [.replaceNode (usizeOfI32 r) (usizeOfI32 p)]
    | _ => .error .panic
  | a => .error (.unknownOp a)

mutual

/-- `GraphOp::try_from_osc` (`graph.rs` lines 227–307): a message parses
via `tryFromMsg`; a bundle is flattened recursively in encoded order,
stopping at the first error (`ops.extend(try_from_osc(packet)?)`). -/
def GraphOp.tryFromOsc : OscPacket → Except ParseErr (List GraphOp)
  | .message msg => GraphOp.tryFromMsg msg
  | .bundle ps => GraphOp.tryFromOscList ps

/-- The `for packet in bund.content.iter()` loop of
`GraphOp::try_from_osc`. -/
def GraphOp.tryFromOscList : List OscPacket → Except ParseErr (List GraphOp)
  | [] => .ok []
  | p :: ps =>
    match GraphOp.tryFromOsc p with
    | .error e => .error e
    | .ok a =>
      match GraphOp.tryFromOscList ps with
      | .error e => .error e
      | .ok b => .ok (a ++ b)

end

/-- `GraphOpResponse` from `graph.rs`: the wire-level result of one
operation, `NodeIndex` or `None`. -/
inductive GraphOpResponse where
  | nodeIndex (i : Nat)
  | none
  deriving DecidableEq

/-- `GraphOpResponse::to_osc` (`graph.rs` lines 83–94). -/
def GraphOpResponse.toOsc : GraphOpResponse → OscPacket
  | .nodeIndex i => .message ⟨"/response/node_index", [.int (i32OfNat i)]⟩
  | .none => .message ⟨"/response/none", []⟩

/-- The `OscPacket::Message` arm of `GraphOpResponse::try_from_osc`
(`graph.rs` lines 96–108): wrong arity hits `unreachable!()`, a
non-int argument hits `.int().unwrap()` — both panics; an unknown
address is the recoverable `InvalidGraphOpResponseError`. -/
def GraphOpResponse.tryFromMsg (msg : OscMessage) :
    Except ParseErr (List GraphOpResponse) :=
  match msg.addr with
  | "/response/node_index" =>
    match msg.args with
    | [index] =>
      match index.int? with
      | Option.none => .error .panic
      | some i => .ok [.nodeIndex (usizeOfI32 i)]
    | _ => .error .panic
  | "/response/none" => .ok [.none]
  | a => .error (.unknownOp a)

mutual

/-- `GraphOpResponse::try_from_osc` (`graph.rs` lines 96–117). -/
def GraphOpResponse.tryFromOsc : OscPacket → Except ParseErr (List GraphOpResponse)
  | .message msg => GraphOpResponse.tryFromMsg msg
  | .bundle ps => GraphOpResponse.tryFromOscList ps

/-- The bundle loop of `GraphOpResponse::try_from_osc`. -/
def GraphOpResponse.tryFromOscList :
    List OscPacket → Except ParseErr (List GraphOpResponse)
  | [] => .ok []
  | p :: ps =>
    match GraphOpResponse.tryFromOsc p with
    | .error e => .error e
    | .ok a =>
      match GraphOpResponse.tryFromOscList ps with
      | .error e => .error e
      | .ok b => .ok (a ++ b)

end

/-- `GraphOp::to_osc` (`graph.rs` lines 309–374), with the `as i32`
casts on `usize`/`u32` fields made explicit. -/
def GraphOp.toOsc : GraphOp → OscPacket
  | .play => .message ⟨"/play", []⟩
  | .stop => .message ⟨"/stop", []⟩
  | .addToMix ch src out =>
    .message ⟨"/add_to_mix",
      [.int (i32OfNat ch), .int (i32OfNat src), out.toOscType]⟩
  | .addConstantF32 c => .message ⟨"/add_constant_f32", [.float c]⟩
  | .addConstantBool b => .message ⟨"/add_constant_bool", [.bool b]⟩
  | .addConstantString s => .message ⟨"/add_constant_string", [.string s]⟩
  | .addProcessor n => .message ⟨"/add_processor", [.string n]⟩
  | .connect s so t ti =>
    .message ⟨"/connect",
      [.int (i32OfNat s), so.toOscType, .int (i32OfNat t), ti.toOscType]⟩
  | .replaceNode r p =>
    .message ⟨"/replace_node", [.int (i32OfNat r), .int (i32OfNat p)]⟩

example : GraphOp.tryFromOsc (.message ⟨"/play", []⟩) = .ok [.play] := rfl

example :
    GraphOp.tryFromOsc
      (.bundle [.message ⟨"/play", []⟩, .message ⟨"/stop", []⟩]) =
      .ok [.play, .stop] := rfl

example :
    GraphOp.tryFromOsc (.message ⟨"/add_constant_f32", []⟩) =
      .error .panic := rfl

example :
    GraphOp.tryFromOsc (.message ⟨"/bogus", []⟩) =
      .error (.unknownOp "/bogus") := rfl

/-! ## The external graph engine

The signal graph itself lives in the external `raug` crates; the spec
treats it as a collaborator exposing node creation, port-aware
connection and node replacement.  The definitions below model that
contract: nodes are arena-indexed in creation order, edges record
`(source, sourceOut, target, targetIn)`. -/

/-- Node kinds allocated by this repository's code: the two initial
mixer `Passthrough`s, the `Add` nodes minted by the `&a + &b` node sum,
the constants, and the registry processors. -/
inductive NodeKind where
  | passthrough
  | add
  | sub
  | mul
  | div
  | neg
  | sineOscillator
  | blSawOscillator
  | constantF32 (c : F32)
  | constantBool (b : Bool)
  | constantString (s : String)
  deriving DecidableEq

/-- A directed port-to-port connection in the graph. -/
structure Edge where
  source : Nat
  sourceOut : Nat
  target : Nat
  targetIn : Nat
  deriving DecidableEq

/-- Modelled from the spec: the external engine's graph state — an
arena of nodes in creation order, the edge list, and which node feeds
each of the two playback (DAC) channels. -/
structure Graph where
  inputs : Nat
  outputs : Nat
  nodes : List NodeKind
  edges : List Edge
  dacIn : List Nat
  deriving DecidableEq

/-- Modelled from the spec: `Graph::new(inputs, outputs)` — a fresh
graph with no user nodes or edges (any engine-internal bookkeeping
nodes are outside the arena indices this model tracks). -/
def Graph.new (inputs outputs : Nat) : Graph :=
  ⟨inputs, outputs, [], [], []⟩

/-- Modelled from the spec: node creation returns the next arena
index — "opaque, monotonically-issued integer". -/
def Graph.node (g : Graph) (k : NodeKind) : Graph × Nat :=
  ({ g with nodes := g.nodes ++ [k] }, g.nodes.length)

/-- Modelled from the spec: the engine's raw index-to-index connect
(`raug_graph::Graph::connect`), which records one edge. -/
def Graph.connectRaw (g : Graph) (s so t ti : Nat) : Graph :=
  { g with edges := g.edges ++ [⟨s, so, t, ti⟩] }

/-- Modelled from the spec: the `&a + &b` node-sum operator of the
engine — mints an `Add` node and connects `a`'s output 0 to its input 0
and `b`'s output 0 to its input 1, returning the new node. -/
def Graph.sum2 (g : Graph) (a b : Nat) : Graph × Nat :=
  let p := g.node .add
  ((p.1.connectRaw a 0 p.2 0).connectRaw b 0 p.2 1, p.2)

/-- Modelled from the spec: `graph.dac((&l, &r))` — wires the two
playback channels to the given nodes. -/
def Graph.dac (g : Graph) (l r : Nat) : Graph :=
  { g with dacIn := [l, r] }

/-- Modelled from the spec: each node kind's declared port-name table
(inputs).  The concrete names are engine-defined; what the claims use
is only that `Name` resolution goes through this table and fails on an
undeclared name. -/
def NodeKind.inputNames : NodeKind → List String
  | .passthrough => ["in"]
  | .add | .sub | .mul | .div => ["a", "b"]
  | .neg => ["in"]
  | .sineOscillator | .blSawOscillator => ["frequency"]
  | .constantF32 _ | .constantBool _ | .constantString _ => []

/-- Modelled from the spec: each node kind's declared output port-name
table. -/
def NodeKind.outputNames : NodeKind → List String
  | _ => ["out"]

/-- `NameOrIndex`'s `IntoIndex::into_output_idx` (`graph.rs` lines
54–62): a `Name` is resolved against the node's declared output table
(`None` if the node does not exist or the name is undeclared); an
`Index` passes through unchecked. -/
def resolveOut (g : Graph) (node : Nat) : NameOrIndex → Option Nat
  | .index i => some i
  | .name n => do
    let k ← g.nodes[node]?
    k.outputNames.findIdx? (· = n)

/-- `NameOrIndex`'s `IntoIndex::into_input_idx` (`graph.rs` lines
44–52). -/
def resolveIn (g : Graph) (node : Nat) : NameOrIndex → Option Nat
  | .index i => some i
  | .name n => do
    let k ← g.nodes[node]?
    k.inputNames.findIdx? (· = n)

/-- Modelled from the spec: `replace_node_gracefully` — every edge
incident to `replaced` is rewired onto `replacement` at the same
ports. -/
def Graph.replaceNodeGracefully (g : Graph) (replaced replacement : Nat) : Graph :=
  { g with edges := g.edges.map fun e =>
      { e with
        source := if e.source = replaced then replacement else e.source
        target := if e.target = replaced then replacement else e.target } }

/-! ## The session (`server.rs`) -/

/-- Outcomes of the two external engine calls the session makes; a
parameter of the model because `Graph::play` (device open) and
`RunningGraph::stop` are outside this repository.  `playResult = some
h` means the engine start call succeeds and returns the running-render
handle `h`; `none` means it fails with an `EngineError`. -/
structure Env where
  playResult : Option Nat
  stopOk : Bool
  deriving DecidableEq

/-- `Server` from `server.rs`: the graph, the optional running-render
handle, the mixer channel nodes, and the master node (backend/device
configuration only feeds the external engine calls and is folded into
`Env`). -/
structure Server where
  graph : Graph
  running : Option Nat
  mixer : List Nat
  master : Nat
  deriving DecidableEq

/-- `Server::new` (`server.rs` lines 17–36): two `Passthrough` mixer
channels, `master = &mixer[0] + &mixer[1]`, and
`graph.dac((&master, &master))`. -/
def Server.new (inputs outputs : Nat) : Server :=
  let g0 := Graph.new inputs outputs
  let p0 := g0.node .passthrough
  let p1 := p0.1.node .passthrough
  let pm := p1.1.sum2 p0.2 p1.2
  ⟨pm.1.dac pm.2 pm.2, none, [p0.2, p1.2], pm.2⟩

/-- Errors produced by applying an operation.  `engine` is the opaque
`EngineError` from `play`/`stop`; `panic` again marks a reached
`todo!()` or an out-of-bounds `Vec` index — a crash, not an `Err`. -/
inductive OpErr where
  | engine
  | unknownProcessor
  | invalidPort
  | parse (e : ParseErr)
  | panic
  deriving DecidableEq

/-- `Server::start_graph` (`server.rs` lines 61–67):
`self.graph.play(CpalOut::spawn(..))?` then install the handle.  There
is no check of `self.running_graph`; the handle is assigned only after
the engine call returns `Ok`. -/
def Server.startGraph (env : Env) (s : Server) : Server × Except OpErr Unit :=
  match env.playResult with
  | some h => ({ s with running := some h }, .ok ())
  | none => (s, .error .engine)

/-- `Server::stop_graph` (`server.rs` lines 69–74): `take()` the handle
(so it is removed even if the engine stop fails), stop it if present;
a no-op when nothing is running. -/
def Server.stopGraph (env : Env) (s : Server) : Server × Except OpErr Unit :=
  match s.running with
  | some _ =>
    if env.stopOk then ({ s with running := none }, .ok ())
    else ({ s with running := none }, .error .engine)
  | none => (s, .ok ())

/-- The `while i >= self.num_mixer_channels()` loop of
`Server::mixer_channel` (`server.rs` lines 50–56), recursing on `i`
which the source decrements once per iteration while the mixer grows by
one: each iteration creates a `Passthrough` channel, re-sums it into a
new master (`self.master = &self.master + &channel`), and pushes it.
(If the condition held at `i = 0` the Rust `i -= 1` on a `usize` would
underflow; that state is unreachable here because the mixer always
holds at least the two initial channels, and the model then simply
stops after the push as the grown mixer ends the loop.) -/
def growLoop (g : Graph) (master : Nat) (mixer : List Nat) : Nat → Graph × Nat × List Nat
  | 0 =>
    if mixer.length ≤ 0 then
      let pc := g.node .passthrough
      let pm := pc.1.sum2 master pc.2
      (pm.1, pm.2, mixer ++ [pc.2])
    else (g, master, mixer)
  | i + 1 =>
    if mixer.length ≤ i + 1 then
      let pc := g.node .passthrough
      let pm := pc.1.sum2 master pc.2
      growLoop pm.1 pm.2 (mixer ++ [pc.2]) i
    else (g, master, mixer)

/-- `Server::mixer_channel` (`server.rs` lines 46–59).  The returned
`Option Nat` is the node of the channel whose input 0 the caller
connects to; `none` models the panicking out-of-bounds
`self.mixer[index]` after the growth loop fell short. -/
def Server.mixerChannel (s : Server) (index : Nat) : Server × Option Nat :=
  if index < s.mixer.length then (s, s.mixer[index]?)
  else
    let r := growLoop s.graph s.master s.mixer index
    ({ s with graph := r.1, master := r.2.1, mixer := r.2.2 }, r.2.2[index]?)

/-- `add_proc_by_name` (`graph.rs` lines 381–394): the macro-expanded
match over the fixed registry; an unrecognized name returns
`UnknownProcessorError` before any node is created. -/
def addProcByName (g : Graph) (n : String) : Except OpErr (Graph × Nat) :=
  match n with
  | "Add" => .ok (g.node .add)
  | "Sub" => .ok (g.node .sub)
  | "Mul" => .ok (g.node .mul)
  | "Div" => .ok (g.node .div)
  | "Neg" => .ok (g.node .neg)
  | "SineOscillator" => .ok (g.node .sineOscillator)
  | "BlSawOscillator" => .ok (g.node .blSawOscillator)
  | _ => .error .unknownProcessor

/-- The registry names accepted by `add_proc_by_name`. -/
def procNames : List String :=
  ["Add", "Sub", "Mul", "Div", "Neg", "SineOscillator", "BlSawOscillator"]

/-- `GraphOp::apply` (`graph.rs` lines 166–225), returning the server
state as mutated so far together with the operation's result (the Rust
`&mut Server` keeps partial mutations on error).  `AddToMix` first
grows the mixer (possibly panicking on the out-of-bounds index), then
hits `todo!()` if the port is a `Name`, then records the raw
connection; `Connect` resolves both ports and fails with the engine's
port error before touching the edge set. -/
def GraphOp.apply (env : Env) (op : GraphOp) (s : Server) :
    Server × Except OpErr GraphOpResponse :=
  match op with
  | .play =>
    let r := s.startGraph env
    (r.1, r.2.map fun _ => .none)
  | .stop =>
    let r := s.stopGraph env
    (r.1, r.2.map fun _ => .none)
  | .addToMix ch src out =>
    let r := s.mixerChannel ch
    match r.2 with
    | Option.none => (r.1, .error .panic)
    | some channel =>
      match out with
      | .name _ => (r.1, .error .panic)
      | .index so =>
        ({ r.1 with graph := r.1.graph.connectRaw src so channel 0 }, .ok .none)
  | .addConstantF32 c =>
    let p := s.graph.node (.constantF32 c)
    ({ s with graph := p.1 }, .ok (.nodeIndex p.2))
  | .addConstantBool b =>
    let p := s.graph.node (.constantBool b)
    ({ s with graph := p.1 }, .ok (.nodeIndex p.2))
  | .addConstantString c =>
    let p := s.graph.node (.constantString c)
    ({ s with graph := p.1 }, .ok (.nodeIndex p.2))
  | .addProcessor n =>
    match addProcByName s.graph n with
    | .ok p => ({ s with graph := p.1 }, .ok (.nodeIndex p.2))
    | .error e => (s, .error e)
  | .connect src so tgt ti =>
    match resolveOut s.graph src so, resolveIn s.graph tgt ti with
    | some o, some i =>
      ({ s with graph := s.graph.connectRaw src o tgt i }, .ok .none)
    | _, _ => (s, .error .invalidPort)
  | .replaceNode r p =>
    ({ s with graph := s.graph.replaceNodeGracefully r p }, .ok (.nodeIndex p))

/-- The `for op in ops` loop of `Server::apply_osc` (`server.rs` lines
81–83): apply in order, stopping at the first error (`op.apply(self)?`)
and discarding the responses accumulated so far (the `responses` vector
is dropped when the error propagates), while keeping all state
mutations already made. -/
def Server.applyOps (env : Env) (s : Server) :
    List GraphOp → Server × Except OpErr (List GraphOpResponse)
  | [] => (s, .ok [])
  | op :: rest =>
    let r := op.apply env s
    match r.2 with
    | .error e => (r.1, .error e)
    | .ok resp =>
      let r2 := Server.applyOps env r.1 rest
      match r2.2 with
      | .error e => (r2.1, .error e)
      | .ok resps => (r2.1, .ok (resp :: resps))

/-- `Server::apply_osc` (`server.rs` lines 76–87): parse the packet
(`?`), then apply each operation in order. -/
def Server.applyOsc (env : Env) (s : Server) (p : OscPacket) :
    Server × Except OpErr (List GraphOpResponse) :=
  match GraphOp.tryFromOsc p with
  | .error e => (s, .error (.parse e))
  | .ok ops => Server.applyOps env s ops

/-! ## The transport loop (`main.rs`) -/

/-- One `recv_from` outcome, with the `rosc::decoder::decode_udp` step
folded in (a datagram either decodes to a packet or is malformed). -/
inductive RecvEvent where
  | packet (p : OscPacket)
  | malformed
  | sockErr

/-- How a finite run of the transport loop ends. -/
inductive LoopExit where
  | recvFailed
  | applyFailed (e : OpErr)
  | pending
  deriving DecidableEq

/-- The `'recv: loop` of `server` (`main.rs` lines 36–60), run over a
finite list of receive outcomes.  Returns the packets sent back to the
client in order, the final server state, and how the run ended: a
malformed datagram is logged and skipped (`continue 'recv`); an
`apply_osc` error propagates out of the loop via `?` with nothing sent
for that packet; a successful packet sends one encoded response per
operation before the next receive; a socket receive error is logged and
returned (`return Err(e.into())`). -/
def runServer (env : Env) (s : Server) :
    List RecvEvent → List OscPacket × Server × LoopExit
  | [] => ([], s, .pending)
  | .sockErr :: _ => ([], s, .recvFailed)
  | .malformed :: rest => runServer env s rest
  | .packet p :: rest =>
    let r := Server.applyOsc env s p
    match r.2 with
    | .error e => ([], r.1, .applyFailed e)
    | .ok resps =>
      let k := runServer env r.1 rest
      (resps.map GraphOpResponse.toOsc ++ k.1, k.2)

/-- The engine environment in which both external calls succeed. -/
def env0 : Env := ⟨some 0, true⟩

example : (Server.new 0 2).mixer = [0, 1] := rfl

example :
    ((GraphOp.addConstantF32 7).apply env0 (Server.new 0 2)).2 =
      .ok (.nodeIndex 3) := rfl

example : (Server.mixerChannel (Server.new 0 2) 5).2 = Option.none := rfl

example : ((Server.mixerChannel (Server.new 0 2) 5).1).mixer = [0, 1, 3, 5] := rfl

/-! ## Claims -/

/-- C1: the claim says every arity/type mismatch on a recognized
address yields a recoverable `ArgumentShapeError`; in the source,
`GraphOp::try_from_osc` destructures with `let [..] = .. else
unreachable!()` and converts with `.unwrap()`, so a recognized address
with missing arguments (here `/add_constant_f32` with no argument) or a
wrongly-typed argument (here `/add_to_mix` with a string channel)
panics — there is no `ArgumentShapeError` anywhere in the code. -/
theorem c1_recognized_address_mismatch_panics :
    GraphOp.tryFromOsc (.message ⟨"/add_constant_f32", []⟩) = .error .panic ∧
    GraphOp.tryFromOsc (.message ⟨"/add_to_mix", [.string "x", .int 0, .int 0]⟩) =
      .error .panic := ⟨rfl, rfl⟩

/-- C3: the claim says `AddToMix(channel = 5)` with 2 existing channels
creates channels 2, 3, 4, 5.  The source loop (`server.rs` lines
50–56) decrements `i` once per created channel while the mixer also
grows by one, so the gap closes by two per iteration: only two
channels are created (mixer length 4) and the subsequent
`self.mixer[index]` with `index = 5` is out of bounds — a panic, not
four new channels. -/
theorem c3_mixer_growth_falls_short :
    ((GraphOp.addToMix 5 0 (.index 0)).apply env0 (Server.new 0 2)).2 =
      .error .panic ∧
    ((GraphOp.addToMix 5 0 (.index 0)).apply env0 (Server.new 0 2)).1.mixer.length = 4 ∧
    (Server.mixerChannel (Server.new 0 2) 5).2 = Option.none ∧
    (Server.mixerChannel (Server.new 0 2) 3).2 = Option.none :=
  ⟨rfl, rfl, rfl, rfl⟩

/-- C6: port-argument decoding.  For `/connect` the claim holds: a wire
string becomes `Name`, a wire int becomes `Index`, any other type is
the recoverable `InvalidNameOrIndexError`.  For `/add_to_mix` the
claim fails: the source converts the port with `.int().unwrap()`, so a
wire string panics instead of becoming a `Name`, and `GraphOp::apply`
hits `todo!()` (a panic) on the `Name` variant instead of accepting
it. -/
theorem c6_port_argument_decoding :
    GraphOp.tryFromOsc (.message ⟨"/connect", [.int 0, .string "out", .int 1, .int 2]⟩) =
      .ok [.connect 0 (.name "out") 1 (.index 2)] ∧
    GraphOp.tryFromOsc (.message ⟨"/connect", [.int 0, .float 0, .int 1, .int 2]⟩) =
      .error .invalidNameOrIndex ∧
    GraphOp.tryFromOsc (.message ⟨"/add_to_mix", [.int 0, .int 0, .string "out"]⟩) =
      .error .panic ∧
    ((GraphOp.addToMix 0 0 (.name "out")).apply env0 (Server.new 0 2)).2 =
      .error .panic :=
  ⟨rfl, rfl, rfl, rfl⟩

/-- C9: a freshly constructed session has exactly the two mixer
channels 0 and 1, each already connected (output 0) into the master sum
node, whose output feeds both playback channels; no render is
active. -/
theorem c9_initial_session_topology (inputs outputs : Nat) :
    (Server.new inputs outputs).mixer = [0, 1] ∧
    (Server.new inputs outputs).master = 2 ∧
    (Server.new inputs outputs).graph.edges = [⟨0, 0, 2, 0⟩, ⟨1, 0, 2, 1⟩] ∧
    (Server.new inputs outputs).graph.dacIn = [2, 2] ∧
    (Server.new inputs outputs).running = Option.none :=
  ⟨rfl, rfl, rfl, rfl, rfl⟩

/-- C10: a socket-level receive failure makes the transport loop return
the error to its caller: nothing is sent, the state is left as it was,
the remaining events are never processed, and the run ends with the
propagated receive failure rather than continuing. -/
theorem c10_recv_failure_terminates_loop (env : Env) (s : Server)
    (rest : List RecvEvent) :
    runServer env s (.sockErr :: rest) = ([], s, .recvFailed) := rfl

/-- C4 (amended): `Server::start_graph` performs no active-render
check; its behaviour is decided entirely by the external engine start
call.  When that call fails, the error is surfaced and the session —
in particular its render-handle field — is left exactly unchanged;
when it succeeds, the returned handle is installed. -/
theorem c4_handle_installed_only_on_success (env : Env) (s : Server) :
    (env.playResult = Option.none → s.startGraph env = (s, .error .engine)) ∧
    (∀ h, env.playResult = some h →
      s.startGraph env = ({ s with running := some h }, .ok ())) := by
  constructor
  · intro hp
    simp [Server.startGraph, hp]
  · intro h hp
    simp [Server.startGraph, hp]

theorem c4_handle_installed_only_on_success_witness :
    Server.startGraph ⟨Option.none, true⟩ (Server.new 0 2) =
      (Server.new 0 2, .error .engine) :=
  (c4_handle_installed_only_on_success ⟨Option.none, true⟩ (Server.new 0 2)).1 rfl

/-- C4 counterexample: with a render already active (`running = some
3`) and an engine start call that succeeds, applying Play does not fail
— it returns `Ok` and installs the second handle over the first, so the
claim "applying Play fails with an error rather than starting a second
render" is false of this code. -/
theorem c4_counterexample :
    Server.startGraph ⟨some 7, true⟩
        { Server.new 0 2 with running := some 3 } =
      ({ Server.new 0 2 with running := some 7 }, .ok ()) := rfl

/-- A name outside the registry hits the default arm of the
macro-expanded match in `add_proc_by_name` and returns
`UnknownProcessorError` without creating a node. -/
theorem addProcByName_not_mem (g : Graph) (n : String) (h : n ∉ procNames) :
    addProcByName g n = .error .unknownProcessor := by
  unfold addProcByName
  split <;> simp_all [procNames]

/-- C8: `AddProcessor` with a name in the fixed registry {Add, Sub,
Mul, Div, Neg, SineOscillator, BlSawOscillator} succeeds with the
fresh handle `s.graph.nodes.length` (an index never issued before) and
appends exactly one node; any other name fails with
`UnknownProcessor` and leaves the whole session — in particular the
node arena — unchanged. -/
theorem c8_add_processor_registry (env : Env) (s : Server) (n : String) :
    (n ∈ procNames → ∃ k : NodeKind,
      (GraphOp.addProcessor n).apply env s =
        ({ s with graph := { s.graph with nodes := s.graph.nodes ++ [k] } },
          .ok (.nodeIndex s.graph.nodes.length))) ∧
    (n ∉ procNames →
      (GraphOp.addProcessor n).apply env s = (s, .error .unknownProcessor)) := by
  constructor
  · intro h
    simp only [procNames, List.mem_cons, List.not_mem_nil, or_false] at h
    rcases h with h | h | h | h | h | h | h <;> subst h <;> exact ⟨_, rfl⟩
  · intro h
    have hn := addProcByName_not_mem s.graph n h
    simp [GraphOp.apply, hn]

theorem c8_add_processor_registry_witness :
    (∃ k : NodeKind,
      (GraphOp.addProcessor "SineOscillator").apply env0 (Server.new 0 2) =
        ({ Server.new 0 2 with
            graph := { (Server.new 0 2).graph with
              nodes := (Server.new 0 2).graph.nodes ++ [k] } },
          .ok (.nodeIndex (Server.new 0 2).graph.nodes.length))) ∧
    (GraphOp.addProcessor "sine").apply env0 (Server.new 0 2) =
      (Server.new 0 2, .error .unknownProcessor) :=
  ⟨(c8_add_processor_registry env0 (Server.new 0 2) "SineOscillator").1 (by decide),
   (c8_add_processor_registry env0 (Server.new 0 2) "sine").2 (by decide)⟩

/-- The packet used to exercise C2: a bundle whose second operation
fails (`AddProcessor("sine")` is not in the registry) after the first
(`AddConstantF32`) succeeded and before a third (`Play`). -/
def c2pkt : OscPacket :=
  .bundle [.message ⟨"/add_constant_f32", [.float 1]⟩,
           .message ⟨"/add_processor", [.string "sine"]⟩,
           .message ⟨"/play", []⟩]

/-- C2 (amended): when the operation after `pre` fails, no later
operation of the packet is applied and the state mutations of the
prior operations stand, but the responses accumulated so far are
discarded with the error — `apply_osc` returns `Err`, so nothing at
all is sent for that packet — and the transport loop terminates by
propagating the error instead of continuing to receive. -/
theorem c2_first_failure_aborts_packet (env : Env) (s s1 s2 : Server)
    (pre post : List GraphOp) (op : GraphOp) (rs : List GraphOpResponse)
    (e : OpErr)
    (hpre : Server.applyOps env s pre = (s1, .ok rs))
    (hop : op.apply env s1 = (s2, .error e)) :
    Server.applyOps env s (pre ++ op :: post) = (s2, .error e) ∧
    ∀ (p : OscPacket) (s3 : Server) (rest : List RecvEvent),
      Server.applyOsc env s p = (s3, .error e) →
      runServer env s (.packet p :: rest) = ([], s3, .applyFailed e) := by
  constructor
  · induction pre generalizing s rs with
    | nil =>
      simp only [Server.applyOps, Prod.mk.injEq, Except.ok.injEq] at hpre
      obtain ⟨hs, _⟩ := hpre
      subst hs
      simp [Server.applyOps, hop]
    | cons q qs ih =>
      simp only [Server.applyOps] at hpre
      rcases hq : q.apply env s with ⟨sa, ra⟩
      rw [hq] at hpre
      cases ra with
      | error e2 => simp at hpre
      | ok resp =>
        simp only at hpre
        rcases hq2 : Server.applyOps env sa qs with ⟨sb, rb⟩
        rw [hq2] at hpre
        cases rb with
        | error e2 => simp at hpre
        | ok resps =>
          simp only [Prod.mk.injEq, Except.ok.injEq] at hpre
          obtain ⟨hsb, _⟩ := hpre
          subst hsb
          have hrec := ih sa resps hq2
          simp [List.cons_append, Server.applyOps, hq, hrec]
  · intro p s3 rest hp
    simp [runServer, hp]

theorem c2_first_failure_aborts_packet_witness :
    Server.applyOps env0 (Server.new 0 2)
        ([GraphOp.addConstantF32 1] ++ GraphOp.addProcessor "sine" :: [GraphOp.play]) =
      (((GraphOp.addConstantF32 1).apply env0 (Server.new 0 2)).1,
        .error .unknownProcessor) ∧
    runServer env0 (Server.new 0 2) [.packet c2pkt] =
      ([], (Server.applyOsc env0 (Server.new 0 2) c2pkt).1,
        .applyFailed .unknownProcessor) :=
  ⟨(c2_first_failure_aborts_packet env0 (Server.new 0 2)
      ((GraphOp.addConstantF32 1).apply env0 (Server.new 0 2)).1
      ((GraphOp.addConstantF32 1).apply env0 (Server.new 0 2)).1
      [GraphOp.addConstantF32 1] [GraphOp.play] (GraphOp.addProcessor "sine")
      [GraphOpResponse.nodeIndex 3] OpErr.unknownProcessor rfl rfl).1,
   (c2_first_failure_aborts_packet env0 (Server.new 0 2)
      ((GraphOp.addConstantF32 1).apply env0 (Server.new 0 2)).1
      ((GraphOp.addConstantF32 1).apply env0 (Server.new 0 2)).1
      [GraphOp.addConstantF32 1] [GraphOp.play] (GraphOp.addProcessor "sine")
      [GraphOpResponse.nodeIndex 3] OpErr.unknownProcessor rfl rfl).2
     c2pkt (Server.applyOsc env0 (Server.new 0 2) c2pkt).1 [] rfl⟩

/-- C2 counterexample: on the packet `c2pkt` the second operation
fails; the claim as stated promises one response per attempted
operation (two, including the failed one) sent to the client and a
loop that keeps receiving.  The code instead: keeps the first
operation's state effect (the constant node — arena grows from 3 to 4
nodes), discards the produced responses, sends nothing, and the loop
terminates with the propagated error. -/
theorem c2_counterexample :
    (Server.applyOsc env0 (Server.new 0 2) c2pkt).2 = .error .unknownProcessor ∧
    (Server.applyOsc env0 (Server.new 0 2) c2pkt).1.graph.nodes.length = 4 ∧
    (runServer env0 (Server.new 0 2) [.packet c2pkt]).1 = [] ∧
    (runServer env0 (Server.new 0 2) [.packet c2pkt]).2.2 =
      .applyFailed .unknownProcessor :=
  ⟨rfl, rfl, rfl, rfl⟩

/-- A `usize` below `2^31` survives the encode cast `as i32` followed
by the decode cast `as usize`. -/
theorem usize_roundtrip (n : Nat) (h : n < 2 ^ 31) :
    usizeOfI32 (i32OfNat n) = n := by
  simp only [usizeOfI32, i32OfNat]
  split <;> omega

/-- Every `u32` survives the encode cast `as i32` followed by the
decode cast `as u32` (two's-complement reinterpretation both ways). -/
theorem u32_roundtrip (u : Nat) (h : u < 2 ^ 32) :
    u32OfI32 (i32OfNat u) = u := by
  simp only [u32OfI32, i32OfNat]
  split <;> omega

/-- The field conditions under which a port reference survives the
wire: a `Name` always does; an `Index` must be a `u32` value, which
the Rust type guarantees. -/
def portSafe : NameOrIndex → Bool
  | .name _ => true
  | .index i => decide (i < 2 ^ 32)

/-- The field conditions under which an operation survives
encode-then-decode: `usize`-typed fields (`mixer_channel` and node
indices) must be below `2^31` (beyond that the `as i32` cast wraps),
`u32`-typed port indices must be below `2^32` (the Rust type
invariant), and an `AddToMix` port must be an `Index` (the decoder
accepts nothing else). -/
def GraphOp.wireSafe : GraphOp → Bool
  | .play | .stop => true
  | .addConstantF32 _ => true
  | .addConstantBool _ => true
  | .addConstantString _ => true
  | .addProcessor _ => true
  | .addToMix ch src out =>
    decide (ch < 2 ^ 31) && decide (src < 2 ^ 31) &&
      (match out with
        | .name _ => false
        | .index i => decide (i < 2 ^ 32))
  | .connect s so t ti =>
    decide (s < 2 ^ 31) && decide (t < 2 ^ 31) && portSafe so && portSafe ti
  | .replaceNode r p => decide (r < 2 ^ 31) && decide (p < 2 ^ 31)

/-- The field condition under which a result survives the wire. -/
def GraphOpResponse.wireSafe : GraphOpResponse → Bool
  | .nodeIndex i => decide (i < 2 ^ 31)
  | .none => true

/-- C5 (amended): decoding the encoding of a value yields the value
back for every `Result` variant and every `Operation` variant whose
fields satisfy `wireSafe` — in particular for every `AddToMix` whose
port is an `Index`.  The unamended claim fails only where `wireSafe`
does: an `AddToMix` carrying a `Name` port panics in the decoder (see
the counterexample), and `usize` fields at or above `2^31` wrap
through the `as i32` cast. -/
theorem c5_roundtrip_on_safe_values :
    (∀ op : GraphOp, op.wireSafe = true →
      GraphOp.tryFromOsc op.toOsc = .ok [op]) ∧
    (∀ r : GraphOpResponse, r.wireSafe = true →
      GraphOpResponse.tryFromOsc r.toOsc = .ok [r]) := by
  constructor
  · intro op h
    cases op with
    | play => rfl
    | stop => rfl
    | addConstantF32 c => rfl
    | addConstantBool b => rfl
    | addConstantString s => rfl
    | addProcessor n => rfl
    | addToMix ch src out =>
      cases out with
      | name a => simp [GraphOp.wireSafe] at h
      | index i =>
        simp only [GraphOp.wireSafe, Bool.and_eq_true, decide_eq_true_eq] at h
        obtain ⟨⟨h1, h2⟩, h3⟩ := h
        have hr : GraphOp.tryFromOsc (GraphOp.toOsc (.addToMix ch src (.index i))) =
            .ok [.addToMix (usizeOfI32 (i32OfNat ch)) (usizeOfI32 (i32OfNat src))
                  (.index (u32OfI32 (i32OfNat i)))] := rfl
        rw [hr, usize_roundtrip ch h1, usize_roundtrip src h2, u32_roundtrip i h3]
    | connect s so t ti =>
      cases so with
      | name a =>
        cases ti with
        | name b =>
          simp only [GraphOp.wireSafe, portSafe, Bool.and_eq_true,
            decide_eq_true_eq] at h
          obtain ⟨⟨⟨h1, h2⟩, -⟩, -⟩ := h
          have hr : GraphOp.tryFromOsc (GraphOp.toOsc
              (.connect s (.name a) t (.name b))) =
              .ok [.connect (usizeOfI32 (i32OfNat s)) (.name a)
                    (usizeOfI32 (i32OfNat t)) (.name b)] := rfl
          rw [hr, usize_roundtrip s h1, usize_roundtrip t h2]
        | index j =>
          simp only [GraphOp.wireSafe, portSafe, Bool.and_eq_true,
            decide_eq_true_eq] at h
          obtain ⟨⟨⟨h1, h2⟩, -⟩, h4⟩ := h
          have hr : GraphOp.tryFromOsc (GraphOp.toOsc
              (.connect s (.name a) t (.index j))) =
              .ok [.connect (usizeOfI32 (i32OfNat s)) (.name a)
                    (usizeOfI32 (i32OfNat t)) (.index (u32OfI32 (i32OfNat j)))] := rfl
          rw [hr, usize_roundtrip s h1, usize_roundtrip t h2, u32_roundtrip j h4]
      | index i =>
        cases ti with
        | name b =>
          simp only [GraphOp.wireSafe, portSafe, Bool.and_eq_true,
            decide_eq_true_eq] at h
          obtain ⟨⟨⟨h1, h2⟩, h3⟩, -⟩ := h
          have hr : GraphOp.tryFromOsc (GraphOp.toOsc
              (.connect s (.index i) t (.name b))) =
              .ok [.connect (usizeOfI32 (i32OfNat s)) (.index (u32OfI32 (i32OfNat i)))
                    (usizeOfI32 (i32OfNat t)) (.name b)] := rfl
          rw [hr, usize_roundtrip s h1, usize_roundtrip t h2, u32_roundtrip i h3]
        | index j =>
          simp only [GraphOp.wireSafe, portSafe, Bool.and_eq_true,
            decide_eq_true_eq] at h
          obtain ⟨⟨⟨h1, h2⟩, h3⟩, h4⟩ := h
          have hr : GraphOp.tryFromOsc (GraphOp.toOsc
              (.connect s (.index i) t (.index j))) =
              .ok [.connect (usizeOfI32 (i32OfNat s)) (.index (u32OfI32 (i32OfNat i)))
                    (usizeOfI32 (i32OfNat t)) (.index (u32OfI32 (i32OfNat j)))] := rfl
          rw [hr, usize_roundtrip s h1, usize_roundtrip t h2,
            u32_roundtrip i h3, u32_roundtrip j h4]
    | replaceNode r p =>
      simp only [GraphOp.wireSafe, Bool.and_eq_true, decide_eq_true_eq] at h
      obtain ⟨h1, h2⟩ := h
      have hr : GraphOp.tryFromOsc (GraphOp.toOsc (.replaceNode r p)) =
          .ok [.replaceNode (usizeOfI32 (i32OfNat r)) (usizeOfI32 (i32OfNat p))] := rfl
      rw [hr, usize_roundtrip r h1, usize_roundtrip p h2]
  · intro r h
    cases r with
    | none => rfl
    | nodeIndex i =>
      simp only [GraphOpResponse.wireSafe, decide_eq_true_eq] at h
      have hr : GraphOpResponse.tryFromOsc (GraphOpResponse.toOsc (.nodeIndex i)) =
          .ok [.nodeIndex (usizeOfI32 (i32OfNat i))] := rfl
      rw [hr, usize_roundtrip i h]

theorem c5_roundtrip_on_safe_values_witness :
    GraphOp.tryFromOsc (GraphOp.toOsc (.connect 1 (.name "out") 2 (.index 3))) =
      .ok [.connect 1 (.name "out") 2 (.index 3)] ∧
    GraphOpResponse.tryFromOsc (GraphOpResponse.toOsc (.nodeIndex 5)) =
      .ok [.nodeIndex 5] :=
  ⟨c5_roundtrip_on_safe_values.1 (.connect 1 (.name "out") 2 (.index 3)) (by decide),
   c5_roundtrip_on_safe_values.2 (.nodeIndex 5) (by decide)⟩

/-- C5 counterexample: for the value `AddToMix {mixer_channel = 0,
source = 0, source_output = Name "out"}`, decoding its encoding does
not yield the value back — the decoder reads the port with
`.int().unwrap()` and the encoded string argument makes the unwrap
panic. -/
theorem c5_counterexample :
    GraphOp.tryFromOsc (GraphOp.toOsc (.addToMix 0 0 (.name "out"))) ≠
      .ok [.addToMix 0 0 (.name "out")] ∧
    GraphOp.tryFromOsc (GraphOp.toOsc (.addToMix 0 0 (.name "out"))) =
      .error .panic := by
  have he : GraphOp.tryFromOsc (GraphOp.toOsc (.addToMix 0 0 (.name "out"))) =
      .error .panic := rfl
  exact ⟨by rw [he]; exact fun hc => Except.noConfusion hc, he⟩

/-- The C7 example packet: a bundle of `[Play, AddConstantF32(1.0),
Stop]` (1.0f32 has bit pattern 0x3F800000). -/
def c7pkt : OscPacket :=
  .bundle [.message ⟨"/play", []⟩,
           .message ⟨"/add_constant_f32", [.float 1065353216]⟩,
           .message ⟨"/stop", []⟩]

/-- C7: (1) decoding a bundle flattens it recursively into the ordered
concatenation of its parts' operations, preserving the encoded order
exactly; (2) when a packet's operations all apply successfully, there
is exactly one result per operation; (3) the example bundle
`[Play, AddConstantF32(1.0), Stop]` yields exactly the three ordered
responses `None`, `NodeIndex 3`, `None`, and the loop sends exactly
their three encodings in that order. -/
theorem c7_bundle_flattening_ordered :
    (∀ (ps : List OscPacket) (opss : List (List GraphOp)),
      List.Forall₂ (fun p ops => GraphOp.tryFromOsc p = .ok ops) ps opss →
      GraphOp.tryFromOsc (.bundle ps) = .ok opss.flatten) ∧
    (∀ (env : Env) (s : Server) (ops : List GraphOp)
      (s2 : Server) (rs : List GraphOpResponse),
      Server.applyOps env s ops = (s2, .ok rs) → rs.length = ops.length) ∧
    (Server.applyOsc env0 (Server.new 0 2) c7pkt).2 =
      .ok [.none, .nodeIndex 3, .none] ∧
    (runServer env0 (Server.new 0 2) [.packet c7pkt]).1 =
      [.message ⟨"/response/none", []⟩,
       .message ⟨"/response/node_index", [.int 3]⟩,
       .message ⟨"/response/none", []⟩] := by
  refine ⟨?_, ?_, rfl, rfl⟩
  · intro ps opss hf
    induction hf with
    | nil => rfl
    | @cons p ops ps2 opss2 hpo hrest ih =>
      have ih2 : GraphOp.tryFromOscList ps2 = .ok opss2.flatten := ih
      show GraphOp.tryFromOscList (p :: ps2) = .ok ((ops :: opss2).flatten)
      simp only [GraphOp.tryFromOscList, hpo, ih2, List.flatten_cons]
  · intro env s ops
    induction ops generalizing s with
    | nil =>
      intro s2 rs h
      simp only [Server.applyOps, Prod.mk.injEq, Except.ok.injEq] at h
      simp [← h.2]
    | cons op rest ih =>
      intro s2 rs h
      simp only [Server.applyOps] at h
      rcases hq : op.apply env s with ⟨sa, ra⟩
      rw [hq] at h
      cases ra with
      | error e => simp at h
      | ok resp =>
        simp only at h
        rcases hq2 : Server.applyOps env sa rest with ⟨sb, rb⟩
        rw [hq2] at h
        cases rb with
        | error e => simp at h
        | ok resps =>
          simp only [Prod.mk.injEq, Except.ok.injEq] at h
          have hlen := ih sa sb resps hq2
          simp [← h.2, hlen]

theorem c7_bundle_flattening_ordered_witness :
    GraphOp.tryFromOsc
        (.bundle [.message ⟨"/play", []⟩, .message ⟨"/stop", []⟩]) =
      .ok ([[GraphOp.play], [GraphOp.stop]].flatten) ∧
    ([GraphOpResponse.none] : List GraphOpResponse).length =
      ([GraphOp.stop] : List GraphOp).length :=
  ⟨c7_bundle_flattening_ordered.1
      [.message ⟨"/play", []⟩, .message ⟨"/stop", []⟩]
      [[GraphOp.play], [GraphOp.stop]]
      (.cons rfl (.cons rfl .nil)),
   c7_bundle_flattening_ordered.2.1 env0 (Server.new 0 2) [GraphOp.stop]
      (Server.new 0 2) [GraphOpResponse.none] rfl⟩

end RaugServer
